import Mathlib

/-!
Verification of the trade-economics statistical analyzer
(`trade_economics_analysis.py`): a shallow embedding of the analyzer's
statistical core (outlier filter, EWMA weighted median, purchase zones,
confidence scorer, window analyzer, comprehensive ROI aggregator and the
dead/unprofitable classifier) over exact rationals, together with theorems
about the embedded functions.

Modelling conventions:
* Prices, timestamps (seconds) and costs are `ℚ` (the Python floats are
  idealized as exact rationals); trade quantities are `ℤ`.
* Sorting (`pandas.sort_values`, `numpy.argsort`) is modelled with
  `List.insertionSort`, which sorts ascending; tie order is irrelevant to
  every property proved here.
* `pandas.Series.quantile` uses linear interpolation between order
  statistics; `quantile` below reproduces that formula exactly.
* Python float division by zero produces no finite value (`inf`/`nan`);
  a fallible division is modelled as `Option ℚ` via `pydiv`, `none`
  standing for the non-finite outcome.
* `numpy.exp`/`sqrt` are transcendental; the confidence scorer is
  modelled over `ℝ`.  The sample standard deviation of fewer than two
  observations is `nan`; this is modelled as `Option ℝ` and the
  `min(100, max(0, nan)) = 0` behaviour of Python's clamp is the `none`
  branch of `calculate_confidence_score`.
-/

namespace TradeEconomics

/-- A secondary-market trade record (`{item_id, item_name, time, price, amount}`
in the source; the name plays no role in any computation and is omitted). -/
structure Trade where
  item_id : ℕ
  time : ℚ
  price : ℚ
  amount : ℤ
deriving DecidableEq

/-- A shop catalog entry (`{item_id, name, cost, currency}` in the source;
name and currency label play no role in the analyzed computations). -/
structure ShopEntry where
  item_id : ℕ
  cost : ℚ
deriving DecidableEq

/-- `EWMA_ALPHA = 0.3`, the exponential weight decay factor. -/
def EWMA_ALPHA : ℚ := 3 / 10

/-- `pandas.Series.quantile(q)` with the default linear interpolation:
sort ascending, set `pos = q·(n−1)`, and interpolate linearly between the
two adjacent order statistics.  The quantile of an empty sample is
`nan` in pandas; it is fixed to `0` here and never used on an empty
sample by the embedded callers. -/
def quantile (q : ℚ) (xs : List ℚ) : ℚ :=
  if xs = [] then 0
  else
    let s := List.insertionSort (· ≤ ·) xs
    let pos : ℚ := q * ((s.length : ℚ) - 1)
    let i : ℕ := (⌊pos⌋).toNat
    let frac : ℚ := pos - (⌊pos⌋ : ℚ)
    let lo := s.getD i 0
    let hi := s.getD (i + 1) lo
    lo + frac * (hi - lo)

/-- `lower_bound = Q1 − 3·IQR` of `detect_and_clean_outliers`. -/
def outlier_lower_bound (group : List Trade) : ℚ :=
  let prices := group.map Trade.price
  let q1 := quantile (1/4) prices
  let q3 := quantile (3/4) prices
  q1 - 3 * (q3 - q1)

/-- `upper_bound = Q3 + 3·IQR` of `detect_and_clean_outliers`. -/
def outlier_upper_bound (group : List Trade) : ℚ :=
  let prices := group.map Trade.price
  let q1 := quantile (1/4) prices
  let q3 := quantile (3/4) prices
  q3 + 3 * (q3 - q1)

/-- `detect_and_clean_outliers`: keep the records whose price lies in
`[Q1 − 3·IQR, Q3 + 3·IQR]`, in their original order. -/
def detect_and_clean_outliers (group : List Trade) : List Trade :=
  group.filter (fun t =>
    decide (outlier_lower_bound group ≤ t.price ∧ t.price ≤ outlier_upper_bound group))

/-- The `clean = detect_and_clean_outliers(g); if empty: clean = g` fallback
that every consumer of the outlier filter performs. -/
def effective_sample (group : List Trade) : List Trade :=
  let clean := detect_and_clean_outliers group
  if clean = [] then group else clean

/-- The five purchase-zone thresholds returned by
`calculate_purchase_zones`. -/
structure Zones where
  excellent : ℚ
  good : ℚ
  fair : ℚ
  overpriced : ℚ
  avoid : ℚ
deriving DecidableEq

/-- `calculate_purchase_zones`: quartile/IQR thresholds of the
outlier-filtered sample (falling back to the raw sample when filtering
empties it); all zeros for an empty sample.  The shop cost argument is
accepted and unused, as in the source. -/
def calculate_purchase_zones (group : List Trade) (_shop_cost : ℚ) : Zones :=
  if group = [] then ⟨0, 0, 0, 0, 0⟩
  else
    let clean_group := effective_sample group
    let prices := clean_group.map Trade.price
    let q1 := quantile (1/4) prices
    let q2 := quantile (1/2) prices
    let q3 := quantile (3/4) prices
    let iqr := q3 - q1
    { excellent := q1
      good := q2 - (1/4) * iqr
      fair := q2 + (1/4) * iqr
      overpriced := q3
      avoid := q3 + (1/2) * iqr }

/-- `numpy.cumsum`: the list of partial sums `[w₀, w₀+w₁, …]`. -/
def cumsum (l : List ℚ) : List ℚ :=
  (List.range l.length).map (fun i => (l.take (i + 1)).sum)

/-- The weighted-median kernel of `calculate_ewma_median` (source lines
142–149): sort the `(price, weight)` pairs by price ascending, accumulate
the weights, and return the price at the first index where the cumulative
weight reaches `0.5` (`numpy.searchsorted(cum, 0.5)` on the nondecreasing
cumulative-weight array).  An out-of-range index — impossible while the
weights sum to at least `0.5` — defaults to `0`. -/
def weighted_median_of (prices ws : List ℚ) : ℚ :=
  let pairs := List.insertionSort (fun x y : ℚ × ℚ => x.1 ≤ y.1) (prices.zip ws)
  let sorted_prices := pairs.map Prod.fst
  let cumulative_weight := cumsum (pairs.map Prod.snd)
  sorted_prices.getD (cumulative_weight.findIdx (fun c => decide ((1:ℚ)/2 ≤ c))) 0

/-- `calculate_ewma_median`: sort by time ascending, weight the i-th
oldest of `n` records by `(1−α)^(n−i−1)`, normalize the weights to sum
to 1, and take the weighted median of the prices.  Empty sample → `0`. -/
def calculate_ewma_median (group : List Trade) (alpha : ℚ) : ℚ :=
  if group = [] then 0
  else
    let sorted_group := List.insertionSort (fun x y : Trade => x.time ≤ y.time) group
    let prices := sorted_group.map Trade.price
    let n := prices.length
    let weights := (List.range n).map (fun i => (1 - alpha) ^ (n - i - 1))
    let wsum := weights.sum
    let norm_weights := weights.map (· / wsum)
    weighted_median_of prices norm_weights

/-- Smallest price of a sample (`Series.min`); `0` on the empty sample,
which no embedded caller reaches. -/
def listMin (l : List ℚ) : ℚ :=
  match l with
  | [] => 0
  | x :: xs => xs.foldl min x

/-- Largest price of a sample (`Series.max`); `0` on the empty sample,
which no embedded caller reaches. -/
def listMax (l : List ℚ) : ℚ :=
  match l with
  | [] => 0
  | x :: xs => xs.foldl max x

/-- `Series.mean`: sum divided by length. -/
def mean (l : List ℚ) : ℚ := l.sum / (l.length : ℚ)

/-- Python float division, `none` when the divisor is zero (the float
result would be `inf`/`nan`, never a finite number). -/
def pydiv (x y : ℚ) : Option ℚ :=
  if y = 0 then none else some (x / y)

/-- `(max(time) − min(time)).days or 1`: whole days spanned by a sample's
timestamps (timestamps in seconds, `timedelta.days` floors), with `0`
replaced by `1`. -/
def days_active (group : List Trade) : ℤ :=
  let ts := group.map Trade.time
  let d : ℤ := ⌊(listMax ts - listMin ts) / 86400⌋
  if d = 0 then 1 else d

/-- Confidence factor 1 (source line 190): `40·(1 − e^(−count/50))`. -/
noncomputable def sample_score (n : ℕ) : ℝ :=
  40 * (1 - Real.exp (-(n : ℝ) / 50))

/-- Confidence factor 2 (source lines 194–197): the coefficient of
variation `cv = std/mean·100` (or `100` when the mean is not positive)
fed into `30·e^(−cv/50)`.  The sample standard deviation (`ddof = 1`) of
fewer than two observations is `nan`; `none` models the `nan` flowing
through the arithmetic. -/
noncomputable def vol_score_opt (c : List Trade) : Option ℝ :=
  let prices := c.map Trade.price
  let avg : ℚ := mean prices
  let std_opt : Option ℝ :=
    if c.length < 2 then none
    else some (Real.sqrt ((prices.map (fun x => (((x - avg : ℚ)) : ℝ) ^ 2)).sum /
      ((c.length : ℝ) - 1)))
  let cv_opt : Option ℝ :=
    if 0 < avg then std_opt.map (fun s => s / (avg : ℝ) * 100) else some 100
  cv_opt.map (fun cv => 30 * Real.exp (-cv / 50))

/-- Confidence factor 3 (source lines 200–202): trades per active day fed
into `30·(1 − e^(−liquidity/2))`. -/
noncomputable def liquidity_factor_score (c : List Trade) : ℝ :=
  let liquidity : ℚ := (c.length : ℚ) / (days_active c : ℚ)
  30 * (1 - Real.exp (-(liquidity : ℝ) / 2))

/-- `calculate_confidence_score`: the three factors summed and clamped by
`min(100, max(0, ·))`.  When the volatility factor is `nan` (single-record
sample with positive mean) the whole sum is `nan` and Python's
`max(0, nan)` returns its first argument, so the clamp yields `0`: the
`none` branch. -/
noncomputable def calculate_confidence_score (group : List Trade) : ℝ :=
  if group = [] then 0
  else
    let c := effective_sample group
    match vol_score_opt c with
    | none => 0
    | some v => min 100 (max 0 (sample_score c.length + v + liquidity_factor_score c))

/-- The recommendation labels produced by `analyze_time_window` (source
lines 249–260).  The source renders these as format strings; the numeric
payloads carried here are exactly the values interpolated there.  The
`noData` label is the string `"NO DATA"` in the source. -/
inductive Recommendation where
  | noData
  | avoidLoss (roi : ℚ)
  | marginal
  | buyNow (excellent : ℚ)
  | buyIfGood (good : ℚ)
  | fairIf (fair : ℚ)
  | waitOverpriced (fair : ℚ)
deriving DecidableEq

/-- The dictionary returned by `analyze_time_window`.  The keys `q1`,
`q3`, `min_price`, `max_price` exist only in the has-data branch of the
source and are `none` in the sentinel. -/
structure WindowResult where
  has_data : Bool
  trade_count : ℕ
  median_price : ℚ
  ewma_median : ℚ
  roi : ℚ
  recommendation : Recommendation
  confidence : ℝ
  zones : Zones
  q1 : Option ℚ
  q3 : Option ℚ
  min_price : Option ℚ
  max_price : Option ℚ

/-- The trade selection of `analyze_time_window` (source lines 211–216):
all trades of the item for the all-time window (`none`), otherwise the
item's trades with `time ≥ today − delta`. -/
def window_trades (df : List Trade) (today : ℚ) (item_id : ℕ)
    (window_delta : Option ℚ) : List Trade :=
  match window_delta with
  | none => df.filter (fun t => decide (t.item_id = item_id))
  | some d => df.filter (fun t => decide (t.item_id = item_id ∧ today - d ≤ t.time))

/-- `analyze_time_window`: the per-item, per-window analysis.  `df` and
the reference date `TODAY` are the ambient analyzer state, passed
explicitly. -/
noncomputable def analyze_time_window (df : List Trade) (today : ℚ) (item_id : ℕ)
    (shop_cost : ℚ) (window_delta : Option ℚ) : WindowResult :=
  let trades := window_trades df today item_id window_delta
  if trades = [] then
    { has_data := false, trade_count := 0, median_price := 0, ewma_median := 0
      roi := -100, recommendation := .noData, confidence := 0
      zones := ⟨0, 0, 0, 0, 0⟩
      q1 := none, q3 := none, min_price := none, max_price := none }
  else
    let clean_trades := effective_sample trades
    let prices := clean_trades.map Trade.price
    let median_price := quantile (1/2) prices
    let ewma_median := calculate_ewma_median clean_trades EWMA_ALPHA
    let roi := if 0 < shop_cost then (ewma_median - shop_cost) / shop_cost * 100 else -100
    let zones := calculate_purchase_zones clean_trades shop_cost
    let confidence := calculate_confidence_score clean_trades
    let recommendation :=
      if roi < -15 then Recommendation.avoidLoss roi
      else if roi < 0 then Recommendation.marginal
      else if ewma_median ≤ zones.excellent then Recommendation.buyNow zones.excellent
      else if ewma_median ≤ zones.good then Recommendation.buyIfGood zones.good
      else if ewma_median ≤ zones.fair then Recommendation.fairIf zones.fair
      else Recommendation.waitOverpriced zones.fair
    { has_data := true, trade_count := trades.length, median_price, ewma_median
      roi, recommendation, confidence, zones
      q1 := some (quantile (1/4) prices), q3 := some (quantile (3/4) prices)
      min_price := some (listMin prices), max_price := some (listMax prices) }

/-- The per-shop-entry dictionary emitted by `calculate_comprehensive_roi`.
`item_name` and `currency` are copied labels and omitted; `std_price` and
`volatility_cv` involve a real square root, feed no verified property and
are omitted (see the file header).  The four ROI fields and the average
loss are `Option ℚ` because the source divides by the shop cost without a
zero guard. -/
structure RoiRecord where
  item_id : ℕ
  shop_cost : ℚ
  avg_price : ℚ
  median_price : ℚ
  min_price : ℚ
  max_price : ℚ
  p25_price : ℚ
  p75_price : ℚ
  roi_avg : Option ℚ
  roi_median : Option ℚ
  roi_min : Option ℚ
  roi_max : Option ℚ
  price_trend_overall : ℚ
  price_trend_q1_q2 : ℚ
  price_trend_q2_q3 : ℚ
  price_trend_q3_q4 : ℚ
  trade_count : ℕ
  outliers_removed : ℕ
  total_volume : ℤ
  liquidity_score : ℚ
  days_active : ℤ
  break_even_probability : ℚ
  avg_loss_pct : Option ℚ
  has_trades : Bool
deriving DecidableEq

/-- The loop body of `calculate_comprehensive_roi` for one shop entry
(source lines 287–418).  The `trade_lookup` membership test is the
existence of a trade with the entry's item id; a miss emits the dead-item
sentinel record. -/
def comprehensive_roi_entry (df : List Trade) (e : ShopEntry) : RoiRecord :=
  let group := df.filter (fun t => decide (t.item_id = e.item_id))
  if group = [] then
    { item_id := e.item_id, shop_cost := e.cost
      avg_price := 0, median_price := 0, min_price := 0, max_price := 0
      p25_price := 0, p75_price := 0
      roi_avg := some (-100), roi_median := some (-100)
      roi_min := some (-100), roi_max := some (-100)
      price_trend_overall := 0, price_trend_q1_q2 := 0
      price_trend_q2_q3 := 0, price_trend_q3_q4 := 0
      trade_count := 0, outliers_removed := 0, total_volume := 0
      liquidity_score := 0, days_active := 0
      break_even_probability := 0, avg_loss_pct := some (-100)
      has_trades := false }
  else
    let clean_group := effective_sample group
    let prices := clean_group.map Trade.price
    let avg_price := mean prices
    let median_price := quantile (1/2) prices
    let min_price := listMin prices
    let max_price := listMax prices
    let p25_price := quantile (1/4) prices
    let p75_price := quantile (3/4) prices
    let trade_count := group.length
    let outliers_removed := group.length - clean_group.length
    let total_volume := (clean_group.map Trade.amount).sum
    let roi_avg := (pydiv (avg_price - e.cost) e.cost).map (· * 100)
    let roi_median := (pydiv (median_price - e.cost) e.cost).map (· * 100)
    let roi_min := (pydiv (min_price - e.cost) e.cost).map (· * 100)
    let roi_max := (pydiv (max_price - e.cost) e.cost).map (· * 100)
    let sorted_group := List.insertionSort (fun x y : Trade => x.time ≤ y.time) clean_group
    let n := sorted_group.length
    let trends :=
      if 4 ≤ n then
        let quarter_size := n / 4
        let q1_avg := mean ((sorted_group.take quarter_size).map Trade.price)
        let q2_avg := mean (((sorted_group.drop quarter_size).take quarter_size).map Trade.price)
        let q3_avg := mean (((sorted_group.drop (quarter_size * 2)).take quarter_size).map Trade.price)
        let q4_avg := mean ((sorted_group.drop (quarter_size * 3)).map Trade.price)
        let trend_q1_q2 := if 0 < q1_avg then (q2_avg - q1_avg) / q1_avg * 100 else 0
        let trend_q2_q3 := if 0 < q2_avg then (q3_avg - q2_avg) / q2_avg * 100 else 0
        let trend_q3_q4 := if 0 < q3_avg then (q4_avg - q3_avg) / q3_avg * 100 else 0
        let overall_trend := if 0 < q1_avg then (q4_avg - q1_avg) / q1_avg * 100 else 0
        (overall_trend, trend_q1_q2, trend_q2_q3, trend_q3_q4)
      else
        let half_point := n / 2
        let first_half :=
          if 0 < half_point then mean ((sorted_group.take half_point).map Trade.price)
          else avg_price
        let second_half :=
          if 0 < half_point then mean ((sorted_group.drop half_point).map Trade.price)
          else avg_price
        let overall_trend :=
          if 0 < first_half then (second_half - first_half) / first_half * 100 else 0
        (overall_trend, 0, 0, 0)
    let days := days_active sorted_group
    let liquidity_score := (trade_count : ℚ) / (days : ℚ)
    let profitable_trades := (clean_group.filter (fun t => decide (e.cost < t.price))).length
    let break_even_probability :=
      if 0 < clean_group.length then
        (profitable_trades : ℚ) / (clean_group.length : ℚ) * 100
      else 0
    let loss_trades := clean_group.filter (fun t => decide (t.price < e.cost))
    let avg_loss_pct :=
      if loss_trades = [] then some 0
      else (pydiv (mean (loss_trades.map Trade.price) - e.cost) e.cost).map (· * 100)
    { item_id := e.item_id, shop_cost := e.cost
      avg_price, median_price, min_price, max_price, p25_price, p75_price
      roi_avg, roi_median, roi_min, roi_max
      price_trend_overall := trends.1, price_trend_q1_q2 := trends.2.1
      price_trend_q2_q3 := trends.2.2.1, price_trend_q3_q4 := trends.2.2.2
      trade_count, outliers_removed, total_volume
      liquidity_score, days_active := days
      break_even_probability, avg_loss_pct
      has_trades := true }

/-- `calculate_comprehensive_roi`: one aggregate record per shop entry,
shop entries kept distinct even when item ids repeat across currencies. -/
def calculate_comprehensive_roi (df : List Trade) (all_shop_items : List ShopEntry) :
    List RoiRecord :=
  all_shop_items.map (comprehensive_roi_entry df)

/-- The float comparison `roi_median < −25` of the never-worth mask: a
non-finite ROI (`none`, arising only from a zero shop cost, where the
float is `+inf`/`nan` because prices are non-negative) compares `false`. -/
def roi_median_below (o : Option ℚ) (bound : ℚ) : Bool :=
  match o with
  | some v => decide (v < bound)
  | none => false

/-- The boolean mask of `identify_exponentially_worse_items` (source lines
430–434): no trades at all, or max price below 75% of shop cost with at
least 3 trades, or median ROI below −25% with break-even probability below
10% and at least 5 trades. -/
def never_worth_mask (r : RoiRecord) : Bool :=
  (r.has_trades == false) ||
  (decide (r.max_price < r.shop_cost * (3/4)) && decide (3 ≤ r.trade_count)) ||
  (roi_median_below r.roi_median (-25) && decide (r.break_even_probability < 10) &&
    decide (5 ≤ r.trade_count))

/-- `identify_exponentially_worse_items`: the rows of the aggregate table
selected by the never-worth mask.  The source then attaches a severity
score and sorts descending by it and labels categories; that
presentation step does not change which entries are flagged and is not
modelled. -/
def identify_exponentially_worse_items (roi_records : List RoiRecord) : List RoiRecord :=
  roi_records.filter never_worth_mask

/-! ## Theorems -/

/-- C5: for every price sample, the Outlier Filter's output is a
subsequence of the input preserving relative order, consisting exactly —
membership and multiplicity — of the records whose price lies in
`[Q1 − 3·IQR, Q3 + 3·IQR]`; the empty sample is returned unchanged. -/
theorem outlier_filter_exact_subsequence :
    (∀ group : List Trade,
      (detect_and_clean_outliers group).Sublist group ∧
      (∀ t : Trade, t ∈ detect_and_clean_outliers group ↔
        t ∈ group ∧ outlier_lower_bound group ≤ t.price ∧
          t.price ≤ outlier_upper_bound group) ∧
      (∀ t : Trade, (detect_and_clean_outliers group).count t =
        if outlier_lower_bound group ≤ t.price ∧ t.price ≤ outlier_upper_bound group
        then group.count t else 0)) ∧
    detect_and_clean_outliers [] = [] := by
  refine ⟨fun group => ⟨List.filter_sublist _, fun t => ?_, fun t => ?_⟩, rfl⟩
  · simp [detect_and_clean_outliers, List.mem_filter]
  · by_cases h : outlier_lower_bound group ≤ t.price ∧ t.price ≤ outlier_upper_bound group
    · rw [if_pos h]
      exact List.count_filter (by simpa using h)
    · rw [if_neg h, List.count_eq_zero]
      intro hmem
      have hm : t ∈ group ∧ outlier_lower_bound group ≤ t.price ∧
          t.price ≤ outlier_upper_bound group := by
        simpa [detect_and_clean_outliers, List.mem_filter] using hmem
      exact h hm.2

/-- C6: the Confidence Scorer's result always lies in `[0, 100]`, and the
empty sample scores exactly `0`. -/
theorem confidence_score_in_range :
    (∀ group : List Trade,
      0 ≤ calculate_confidence_score group ∧ calculate_confidence_score group ≤ 100) ∧
    calculate_confidence_score [] = 0 := by
  constructor
  · intro group
    unfold calculate_confidence_score
    by_cases hg : group = []
    · simp [hg]
    · rw [if_neg hg]
      rcases hv : vol_score_opt (effective_sample group) with _ | v
      · simp [hv]
      · simp only [hv]
        exact ⟨le_min (by norm_num) (le_max_left 0 _), min_le_left 100 _⟩
  · simp [calculate_confidence_score]

/-- C3: a `(item, cost, window)` query matching no trade yields exactly the
sentinel window result: `has_data = false`, trade count `0`, median and
weighted median `0`, ROI `−100`, recommendation `NO DATA`, confidence `0`,
and all five zone thresholds `0`. -/
theorem window_no_data_sentinel (df : List Trade) (today : ℚ) (item_id : ℕ)
    (shop_cost : ℚ) (window_delta : Option ℚ)
    (h : window_trades df today item_id window_delta = []) :
    (analyze_time_window df today item_id shop_cost window_delta).has_data = false ∧
    (analyze_time_window df today item_id shop_cost window_delta).trade_count = 0 ∧
    (analyze_time_window df today item_id shop_cost window_delta).median_price = 0 ∧
    (analyze_time_window df today item_id shop_cost window_delta).ewma_median = 0 ∧
    (analyze_time_window df today item_id shop_cost window_delta).roi = -100 ∧
    (analyze_time_window df today item_id shop_cost window_delta).recommendation =
      Recommendation.noData ∧
    (analyze_time_window df today item_id shop_cost window_delta).confidence = 0 ∧
    (analyze_time_window df today item_id shop_cost window_delta).zones = ⟨0, 0, 0, 0, 0⟩ := by
  simp [analyze_time_window, h]

/-- Witness for C3: a one-trade data set queried for a different item id
hits the sentinel. -/
theorem window_no_data_sentinel_witness :
    (analyze_time_window [⟨1, 0, 5, 1⟩] 0 2 10 none).roi = -100 ∧
    (analyze_time_window [⟨1, 0, 5, 1⟩] 0 2 10 none).recommendation =
      Recommendation.noData ∧
    (analyze_time_window [⟨1, 0, 5, 1⟩] 0 2 10 none).has_data = false := by
  have h := window_no_data_sentinel [⟨1, 0, 5, 1⟩] 0 2 10 none (by decide)
  exact ⟨h.2.2.2.2.1, h.2.2.2.2.2.1, h.1⟩

/-- C4: a shop entry whose item id matches no trade yields the dead-item
sentinel aggregate record: `has_trades = false`, all four ROI variants
`−100`, zero trade count and zero total volume — by construction, with no
runtime failure. -/
theorem dead_item_sentinel (df : List Trade) (e : ShopEntry)
    (h : ∀ t ∈ df, t.item_id ≠ e.item_id) :
    (comprehensive_roi_entry df e).has_trades = false ∧
    (comprehensive_roi_entry df e).roi_avg = some (-100) ∧
    (comprehensive_roi_entry df e).roi_median = some (-100) ∧
    (comprehensive_roi_entry df e).roi_min = some (-100) ∧
    (comprehensive_roi_entry df e).roi_max = some (-100) ∧
    (comprehensive_roi_entry df e).trade_count = 0 ∧
    (comprehensive_roi_entry df e).total_volume = 0 := by
  have hg : df.filter (fun t => decide (t.item_id = e.item_id)) = [] := by
    rw [List.filter_eq_nil_iff]
    intro t ht
    simpa using h t ht
  simp [comprehensive_roi_entry, hg]

/-- Witness for C4: a one-trade data set aggregated for a shop entry with
a different item id emits the dead-item record. -/
theorem dead_item_sentinel_witness :
    (comprehensive_roi_entry [⟨1, 0, 5, 1⟩] ⟨2, 50⟩).has_trades = false ∧
    (comprehensive_roi_entry [⟨1, 0, 5, 1⟩] ⟨2, 50⟩).roi_median = some (-100) ∧
    (comprehensive_roi_entry [⟨1, 0, 5, 1⟩] ⟨2, 50⟩).total_volume = 0 := by
  have h := dead_item_sentinel [⟨1, 0, 5, 1⟩] ⟨2, 50⟩ (by decide)
  exact ⟨h.1, h.2.2.1, h.2.2.2.2.2.2⟩

/-- C2 (code bug evidence): the Window Analyzer does guard a non-positive
shop cost, returning ROI `−100`; but the ROI Aggregator's four ROI
variants divide by the shop cost unguarded — at cost `0` the division has
no finite value (`none`; the float would be `inf`/`nan`, not `−100`), and
at cost `−50` with a trade priced `40` it yields `−180`, not `−100`. -/
theorem roi_nonpositive_cost (df : List Trade) (today : ℚ) (item_id : ℕ)
    (shop_cost : ℚ) (window_delta : Option ℚ) (hc : shop_cost ≤ 0) :
    (analyze_time_window df today item_id shop_cost window_delta).roi = -100 ∧
    ((comprehensive_roi_entry [⟨5, 0, 40, 1⟩] ⟨5, 0⟩).roi_avg = none ∧
      (comprehensive_roi_entry [⟨5, 0, 40, 1⟩] ⟨5, 0⟩).roi_median = none ∧
      (comprehensive_roi_entry [⟨5, 0, 40, 1⟩] ⟨5, 0⟩).roi_min = none ∧
      (comprehensive_roi_entry [⟨5, 0, 40, 1⟩] ⟨5, 0⟩).roi_max = none) ∧
    (comprehensive_roi_entry [⟨5, 0, 40, 1⟩] ⟨5, -50⟩).roi_avg = some (-180) := by
  refine ⟨?_, by with_unfolding_all decide, by with_unfolding_all decide⟩
  unfold analyze_time_window
  by_cases ht : window_trades df today item_id window_delta = []
  · simp [ht]
  · rw [if_neg ht]
    simp [not_lt.mpr hc]

/-- Witness for C2: the Window Analyzer at shop cost `0` (discharging
`shop_cost ≤ 0`) reports ROI `−100`. -/
theorem roi_nonpositive_cost_witness :
    (analyze_time_window [] 0 1 0 none).roi = -100 :=
  (roi_nonpositive_cost [] 0 1 0 none (le_refl 0)).1

/-- C9: when the outlier-filtered sample of a traded shop entry holds
fewer than 4 records, the aggregator's trend computation takes the
halves branch — total by construction, hence no out-of-bounds access —
setting the three quarterly sub-trends to `0` and the overall trend to
the simple two-period change between the two halves' mean prices (both
halves falling back to the sample mean when the half size is zero). -/
theorem small_sample_trend_halves (df : List Trade) (e : ShopEntry)
    (hne : df.filter (fun t => decide (t.item_id = e.item_id)) ≠ [])
    (hlt : (effective_sample (df.filter (fun t => decide (t.item_id = e.item_id)))).length < 4) :
    (comprehensive_roi_entry df e).price_trend_q1_q2 = 0 ∧
    (comprehensive_roi_entry df e).price_trend_q2_q3 = 0 ∧
    (comprehensive_roi_entry df e).price_trend_q3_q4 = 0 ∧
    (comprehensive_roi_entry df e).price_trend_overall =
      (let clean := effective_sample (df.filter (fun t => decide (t.item_id = e.item_id)))
       let sorted_clean := List.insertionSort (fun x y : Trade => x.time ≤ y.time) clean
       let half_point := sorted_clean.length / 2
       let first_half :=
         if 0 < half_point then mean ((sorted_clean.take half_point).map Trade.price)
         else mean (clean.map Trade.price)
       let second_half :=
         if 0 < half_point then mean ((sorted_clean.drop half_point).map Trade.price)
         else mean (clean.map Trade.price)
       if 0 < first_half then (second_half - first_half) / first_half * 100 else 0) := by
  have hlen : (List.insertionSort (fun x y : Trade => x.time ≤ y.time)
      (effective_sample (df.filter (fun t => decide (t.item_id = e.item_id))))).length < 4 := by
    rwa [List.length_insertionSort]
  unfold comprehensive_roi_entry
  rw [if_neg hne]
  simp only [if_neg (by omega : ¬ 4 ≤ (List.insertionSort (fun x y : Trade => x.time ≤ y.time)
    (effective_sample (df.filter (fun t => decide (t.item_id = e.item_id))))).length)]
  exact ⟨trivial, trivial, trivial, trivial⟩

/-- Witness for C9: two trades (prices 10 then 20) give sub-trends `0` and
overall trend `100` (= simple change between half means 10 and 20). -/
theorem small_sample_trend_halves_witness :
    (comprehensive_roi_entry [⟨3, 0, 10, 1⟩, ⟨3, 100, 20, 1⟩] ⟨3, 5⟩).price_trend_q1_q2 = 0 ∧
    (comprehensive_roi_entry [⟨3, 0, 10, 1⟩, ⟨3, 100, 20, 1⟩] ⟨3, 5⟩).price_trend_overall = 100 := by
  have h := small_sample_trend_halves [⟨3, 0, 10, 1⟩, ⟨3, 100, 20, 1⟩] ⟨3, 5⟩
    (by with_unfolding_all decide) (by with_unfolding_all decide)
  refine ⟨h.1, ?_⟩
  rw [h.2.2.2]
  with_unfolding_all decide

/-- C8: a shop entry's aggregate record is flagged "never worth it" iff
it has no trades, or has at least 3 trades with max observed price below
75% of shop cost, or has at least 5 trades with median ROI below −25% and
break-even probability below 10%; and the concrete scenario of three
trades priced 30 against shop cost 100 is flagged. -/
theorem never_worth_iff :
    (∀ (roi_records : List RoiRecord) (r : RoiRecord),
      r ∈ identify_exponentially_worse_items roi_records ↔
        r ∈ roi_records ∧
          (r.has_trades = false ∨
            (3 ≤ r.trade_count ∧ r.max_price < r.shop_cost * (3/4)) ∨
            (5 ≤ r.trade_count ∧ (∃ v, r.roi_median = some v ∧ v < -25) ∧
              r.break_even_probability < 10))) ∧
    identify_exponentially_worse_items
        [comprehensive_roi_entry [⟨7, 0, 30, 1⟩, ⟨7, 100, 30, 2⟩, ⟨7, 200, 30, 1⟩] ⟨7, 100⟩] =
      [comprehensive_roi_entry [⟨7, 0, 30, 1⟩, ⟨7, 100, 30, 2⟩, ⟨7, 200, 30, 1⟩] ⟨7, 100⟩] := by
  constructor
  · intro roi_records r
    rw [identify_exponentially_worse_items, List.mem_filter]
    apply and_congr Iff.rfl
    cases hm : r.roi_median with
    | none =>
      simp [never_worth_mask, roi_median_below, hm]
      tauto
    | some v =>
      simp [never_worth_mask, roi_median_below, hm]
      tauto
  · with_unfolding_all decide

/-- C1 (counterexample): for the sample with prices `[0, 0, 0, 4]` the
quartiles are `Q1 = Q2 = 0`, `Q3 = 1`, so `good = Q2 − 0.25·IQR = −1/4`
lies strictly below `excellent = Q1 = 0` and the claimed chain
`excellent ≤ good ≤ fair ≤ overpriced ≤ avoid` fails. -/
theorem zone_chain_counterexample :
    ¬ ((calculate_purchase_zones
          [⟨1, 0, 0, 1⟩, ⟨1, 1, 0, 1⟩, ⟨1, 2, 0, 1⟩, ⟨1, 3, 4, 1⟩] 100).excellent ≤
        (calculate_purchase_zones
          [⟨1, 0, 0, 1⟩, ⟨1, 1, 0, 1⟩, ⟨1, 2, 0, 1⟩, ⟨1, 3, 4, 1⟩] 100).good ∧
      (calculate_purchase_zones
          [⟨1, 0, 0, 1⟩, ⟨1, 1, 0, 1⟩, ⟨1, 2, 0, 1⟩, ⟨1, 3, 4, 1⟩] 100).good ≤
        (calculate_purchase_zones
          [⟨1, 0, 0, 1⟩, ⟨1, 1, 0, 1⟩, ⟨1, 2, 0, 1⟩, ⟨1, 3, 4, 1⟩] 100).fair ∧
      (calculate_purchase_zones
          [⟨1, 0, 0, 1⟩, ⟨1, 1, 0, 1⟩, ⟨1, 2, 0, 1⟩, ⟨1, 3, 4, 1⟩] 100).fair ≤
        (calculate_purchase_zones
          [⟨1, 0, 0, 1⟩, ⟨1, 1, 0, 1⟩, ⟨1, 2, 0, 1⟩, ⟨1, 3, 4, 1⟩] 100).overpriced ∧
      (calculate_purchase_zones
          [⟨1, 0, 0, 1⟩, ⟨1, 1, 0, 1⟩, ⟨1, 2, 0, 1⟩, ⟨1, 3, 4, 1⟩] 100).overpriced ≤
        (calculate_purchase_zones
          [⟨1, 0, 0, 1⟩, ⟨1, 1, 0, 1⟩, ⟨1, 2, 0, 1⟩, ⟨1, 3, 4, 1⟩] 100).avoid) := by
  with_unfolding_all decide

/-- C1 (amended): for every non-empty price sample whose effective
(post-filter, with fallback) quartiles put the median at least
`0.25·IQR` above `Q1` and at least `0.25·IQR` below `Q3`, the Zone
Classifier's thresholds satisfy the full chain
`excellent ≤ good ≤ fair ≤ overpriced ≤ avoid`. -/
theorem zone_chain_of_central_median (group : List Trade) (shop_cost : ℚ)
    (hne : group ≠ [])
    (h1 : quantile (1/4) ((effective_sample group).map Trade.price) +
        (1/4) * (quantile (3/4) ((effective_sample group).map Trade.price) -
          quantile (1/4) ((effective_sample group).map Trade.price)) ≤
        quantile (1/2) ((effective_sample group).map Trade.price))
    (h2 : quantile (1/2) ((effective_sample group).map Trade.price) ≤
        quantile (3/4) ((effective_sample group).map Trade.price) -
        (1/4) * (quantile (3/4) ((effective_sample group).map Trade.price) -
          quantile (1/4) ((effective_sample group).map Trade.price))) :
    (calculate_purchase_zones group shop_cost).excellent ≤
      (calculate_purchase_zones group shop_cost).good ∧
    (calculate_purchase_zones group shop_cost).good ≤
      (calculate_purchase_zones group shop_cost).fair ∧
    (calculate_purchase_zones group shop_cost).fair ≤
      (calculate_purchase_zones group shop_cost).overpriced ∧
    (calculate_purchase_zones group shop_cost).overpriced ≤
      (calculate_purchase_zones group shop_cost).avoid := by
  have hz : calculate_purchase_zones group shop_cost =
      { excellent := quantile (1/4) ((effective_sample group).map Trade.price)
        good := quantile (1/2) ((effective_sample group).map Trade.price) -
          (1/4) * (quantile (3/4) ((effective_sample group).map Trade.price) -
            quantile (1/4) ((effective_sample group).map Trade.price))
        fair := quantile (1/2) ((effective_sample group).map Trade.price) +
          (1/4) * (quantile (3/4) ((effective_sample group).map Trade.price) -
            quantile (1/4) ((effective_sample group).map Trade.price))
        overpriced := quantile (3/4) ((effective_sample group).map Trade.price)
        avoid := quantile (3/4) ((effective_sample group).map Trade.price) +
          (1/2) * (quantile (3/4) ((effective_sample group).map Trade.price) -
            quantile (1/4) ((effective_sample group).map Trade.price)) } := by
    unfold calculate_purchase_zones
    rw [if_neg hne]
  rw [hz]
  dsimp only
  exact ⟨by linarith, by linarith, by linarith, by linarith⟩

/-- Witness for C1 (amended): the sample with prices `[0, 1, 2, 3]` has
effective quartiles `Q1 = 3/4`, `Q2 = 3/2`, `Q3 = 9/4`, its median is
central, and the five thresholds `(3/4, 9/8, 15/8, 9/4, 3)` are chained. -/
theorem zone_chain_of_central_median_witness :
    (calculate_purchase_zones
        [⟨1, 0, 0, 1⟩, ⟨1, 1, 1, 1⟩, ⟨1, 2, 2, 1⟩, ⟨1, 3, 3, 1⟩] 100).excellent ≤
      (calculate_purchase_zones
        [⟨1, 0, 0, 1⟩, ⟨1, 1, 1, 1⟩, ⟨1, 2, 2, 1⟩, ⟨1, 3, 3, 1⟩] 100).good ∧
    (calculate_purchase_zones
        [⟨1, 0, 0, 1⟩, ⟨1, 1, 1, 1⟩, ⟨1, 2, 2, 1⟩, ⟨1, 3, 3, 1⟩] 100).good ≤
      (calculate_purchase_zones
        [⟨1, 0, 0, 1⟩, ⟨1, 1, 1, 1⟩, ⟨1, 2, 2, 1⟩, ⟨1, 3, 3, 1⟩] 100).fair ∧
    (calculate_purchase_zones
        [⟨1, 0, 0, 1⟩, ⟨1, 1, 1, 1⟩, ⟨1, 2, 2, 1⟩, ⟨1, 3, 3, 1⟩] 100).fair ≤
      (calculate_purchase_zones
        [⟨1, 0, 0, 1⟩, ⟨1, 1, 1, 1⟩, ⟨1, 2, 2, 1⟩, ⟨1, 3, 3, 1⟩] 100).overpriced ∧
    (calculate_purchase_zones
        [⟨1, 0, 0, 1⟩, ⟨1, 1, 1, 1⟩, ⟨1, 2, 2, 1⟩, ⟨1, 3, 3, 1⟩] 100).overpriced ≤
      (calculate_purchase_zones
        [⟨1, 0, 0, 1⟩, ⟨1, 1, 1, 1⟩, ⟨1, 2, 2, 1⟩, ⟨1, 3, 3, 1⟩] 100).avoid :=
  zone_chain_of_central_median
    [⟨1, 0, 0, 1⟩, ⟨1, 1, 1, 1⟩, ⟨1, 2, 2, 1⟩, ⟨1, 3, 3, 1⟩] 100
    (by with_unfolding_all decide) (by with_unfolding_all decide)
    (by with_unfolding_all decide)

lemma cumsum_length (l : List ℚ) : (cumsum l).length = l.length := by
  simp [cumsum]

lemma sum_mem_cumsum (l : List ℚ) (h : l ≠ []) : l.sum ∈ cumsum l := by
  have hlen : 0 < l.length := List.length_pos.mpr h
  refine List.mem_map.mpr ⟨l.length - 1, List.mem_range.mpr (by omega), ?_⟩
  rw [Nat.sub_add_cancel hlen, List.take_length]

lemma sum_map_div (l : List ℚ) (W : ℚ) : (l.map (· / W)).sum = l.sum / W := by
  induction l with
  | nil => simp
  | cons x xs ih => simp [ih, add_div]

lemma getD_eq_of_forall_eq (l : List ℚ) (p : ℚ) (i : ℕ) (h : ∀ x ∈ l, x = p)
    (hi : i < l.length) : l.getD i 0 = p := by
  rw [List.getD_eq_getElem l 0 hi]
  exact h _ (List.getElem_mem hi)

/-- The weighted-median kernel returns the common price of a sample in
which every price equals `p`, as long as the weights sum to at least
`0.5` (so the cumulative-weight search lands in bounds). -/
lemma weighted_median_of_const (prices ws : List ℚ) (p : ℚ)
    (hp : ∀ x ∈ prices, x = p) (hlen : prices.length = ws.length)
    (hne : prices ≠ []) (hsum : (1:ℚ)/2 ≤ ws.sum) :
    weighted_median_of prices ws = p := by
  simp only [weighted_median_of]
  have hperm : List.Perm (List.insertionSort (fun x y : ℚ × ℚ => x.1 ≤ y.1) (prices.zip ws))
      (prices.zip ws) := List.perm_insertionSort _ _
  set pairs := List.insertionSort (fun x y : ℚ × ℚ => x.1 ≤ y.1) (prices.zip ws) with hpairs
  have hzlen : (prices.zip ws).length = prices.length := by
    rw [List.length_zip, ← hlen, Nat.min_self]
  have hplen : pairs.length = prices.length := hperm.length_eq.trans hzlen
  have hpos : 0 < prices.length := List.length_pos.mpr hne
  have hsnd : (pairs.map Prod.snd).sum = ws.sum := by
    have h1 : List.Perm (pairs.map Prod.snd) ((prices.zip ws).map Prod.snd) := hperm.map _
    rw [h1.sum_eq, List.map_snd_zip _ _ (le_of_eq hlen.symm)]
  have hsndne : pairs.map Prod.snd ≠ [] := by
    apply List.ne_nil_of_length_pos
    rw [List.length_map, hplen]
    exact hpos
  have hmem : ws.sum ∈ cumsum (pairs.map Prod.snd) := by
    rw [← hsnd]
    exact sum_mem_cumsum _ hsndne
  have hidx : (cumsum (pairs.map Prod.snd)).findIdx (fun c => decide ((1:ℚ)/2 ≤ c)) <
      (cumsum (pairs.map Prod.snd)).length :=
    List.findIdx_lt_length_of_exists ⟨ws.sum, hmem, by simpa using hsum⟩
  apply getD_eq_of_forall_eq
  · intro x hx
    rcases List.mem_map.mp hx with ⟨⟨a, b⟩, hpr, rfl⟩
    exact hp _ (List.of_mem_zip (hperm.subset hpr)).1
  · rw [List.length_map, hplen]
    rw [cumsum_length, List.length_map, hplen] at hidx
    exact hidx

/-- C7: for every non-empty sample in which every record has the same
price `p` and every decay factor `0 < α < 1`, the recency-weighted
estimator's weighted median is exactly `p`. -/
theorem ewma_median_all_equal (group : List Trade) (p alpha : ℚ)
    (hne : group ≠ []) (hall : ∀ t ∈ group, t.price = p)
    (h0 : 0 < alpha) (h1 : alpha < 1) :
    calculate_ewma_median group alpha = p := by
  have hsne : List.insertionSort (fun x y : Trade => x.time ≤ y.time) group ≠ [] := by
    intro hc
    apply hne
    rw [← List.length_eq_zero, ← List.length_insertionSort (fun x y : Trade => x.time ≤ y.time)
      group, hc, List.length_nil]
  simp only [calculate_ewma_median, if_neg hne]
  set s := List.insertionSort (fun x y : Trade => x.time ≤ y.time) group with hs
  set prices := s.map Trade.price with hprices
  set n := prices.length with hn
  set weights := (List.range n).map (fun i => (1 - alpha) ^ (n - i - 1)) with hweights
  have hprpos : 0 < prices.length := by
    rw [hprices, List.length_map]
    exact List.length_pos.mpr hsne
  have hWpos : 0 < weights.sum := by
    apply List.sum_pos
    · intro x hx
      rcases List.mem_map.mp hx with ⟨i, _, rfl⟩
      exact pow_pos (by linarith) _
    · apply List.ne_nil_of_length_pos
      rw [hweights, List.length_map, List.length_range]
      exact hprpos
  apply weighted_median_of_const
  · intro x hx
    rcases List.mem_map.mp hx with ⟨t, ht, rfl⟩
    exact hall t ((List.perm_insertionSort _ _).subset ht)
  · simp [hweights, hn, hprices]
  · exact List.ne_nil_of_length_pos hprpos
  · rw [sum_map_div, div_self (ne_of_gt hWpos)]
    norm_num

/-- Witness for C7: two trades at price 7 and `α = 0.3` give weighted
median 7. -/
theorem ewma_median_all_equal_witness :
    calculate_ewma_median [⟨1, 0, 7, 1⟩, ⟨1, 10, 7, 1⟩] (3/10) = 7 :=
  ewma_median_all_equal [⟨1, 0, 7, 1⟩, ⟨1, 10, 7, 1⟩] 7 (3/10)
    (by with_unfolding_all decide) (by with_unfolding_all decide)
    (by with_unfolding_all decide) (by with_unfolding_all decide)

/-- Every quantile of a one-element sample is that element. -/
lemma quantile_singleton (q x : ℚ) : quantile q [x] = x := by
  unfold quantile
  norm_num

/-- C10 (counterexample): a sample of exactly one trade priced `0` does
NOT score `0`: the mean is not positive, so the coefficient of variation
takes the `cv = 100` fallback instead of the `nan` standard deviation,
and the score `40·(1−e^(−1/50)) + 30·e^(−2) + 30·(1−e^(−1/2))` is
strictly positive. -/
theorem single_trade_confidence_counterexample :
    calculate_confidence_score [⟨1, 0, 0, 1⟩] ≠ 0 := by
  have hce : effective_sample [⟨1, 0, 0, 1⟩] = [⟨1, 0, 0, 1⟩] := by
    with_unfolding_all decide
  have hvol : vol_score_opt [⟨1, 0, 0, 1⟩] = some (30 * Real.exp (-(100:ℝ) / 50)) := by
    unfold vol_score_opt
    norm_num [mean]
  have hliq : liquidity_factor_score [⟨1, 0, 0, 1⟩] = 30 * (1 - Real.exp (-(1:ℝ) / 2)) := by
    unfold liquidity_factor_score
    norm_num [days_active, listMax, listMin]
  have hsamp : sample_score 1 = 40 * (1 - Real.exp (-(1:ℝ) / 50)) := by
    unfold sample_score
    norm_num
  unfold calculate_confidence_score
  rw [if_neg (by simp : ([⟨1, 0, 0, 1⟩] : List Trade) ≠ [])]
  simp only [hce, hvol, hliq, List.length_singleton, hsamp]
  have he1 : Real.exp (-(1:ℝ) / 50) < 1 := Real.exp_lt_one_iff.mpr (by norm_num)
  have he2 : 0 < Real.exp (-(100:ℝ) / 50) := Real.exp_pos _
  have he3 : Real.exp (-(1:ℝ) / 2) < 1 := Real.exp_lt_one_iff.mpr (by norm_num)
  have hpos : 0 < 40 * (1 - Real.exp (-(1:ℝ) / 50)) + 30 * Real.exp (-(100:ℝ) / 50) +
      30 * (1 - Real.exp (-(1:ℝ) / 2)) := by nlinarith
  have : (0:ℝ) < min 100 (max 0 (40 * (1 - Real.exp (-(1:ℝ) / 50)) +
      30 * Real.exp (-(100:ℝ) / 50) + 30 * (1 - Real.exp (-(1:ℝ) / 2)))) :=
    lt_min (by norm_num) (lt_of_lt_of_le hpos (le_max_right 0 _))
  exact ne_of_gt this

/-- C10 (amended): a sample of exactly one trade with positive price
scores exactly `0`: the sample standard deviation of one observation is
undefined (`nan`), the positive mean selects the `std/mean` branch, the
`nan` propagates to the total, and Python's `min(100, max(0, nan))`
clamp returns `0` — even though the sample-size and liquidity factors
alone would be positive. -/
theorem single_trade_positive_price_confidence_zero (t : Trade) (hp : 0 < t.price) :
    calculate_confidence_score [t] = 0 := by
  have hq : ∀ q : ℚ, quantile q [t.price] = t.price := fun q => quantile_singleton q t.price
  have hce : effective_sample [t] = [t] := by
    unfold effective_sample detect_and_clean_outliers outlier_lower_bound outlier_upper_bound
    simp [hq]
  have havg : mean [t.price] = t.price := by
    simp [mean]
  have hvol : vol_score_opt [t] = none := by
    unfold vol_score_opt
    simp [havg, hp]
  unfold calculate_confidence_score
  rw [if_neg (by simp : ([t] : List Trade) ≠ [])]
  simp only [hce, hvol]

/-- Witness for C10 (amended): one trade priced `5` scores `0`. -/
theorem single_trade_positive_price_confidence_zero_witness :
    calculate_confidence_score [⟨1, 0, 5, 1⟩] = 0 :=
  single_trade_positive_price_confidence_zero ⟨1, 0, 5, 1⟩ (by norm_num)

end TradeEconomics
